import Mathlib

/-!
Shallow embedding of `google_nest_sdm/event.py` (value objects over raw
pub/sub payload dictionaries, and the `BuildEvents` dispatch helper),
together with a model of CPython's `datetime.fromisoformat` parser
(pre-3.11 grammar), which the `timestamp` accessor delegates to.

Python dictionaries are modelled as association lists with unique keys
(`lookupKey` finds the first matching key, mirroring dict lookup);
Python exceptions are modelled by the `Except PyErr` monad: a missing
key raises `KeyError`, indexing a non-dictionary raises `TypeError`,
and an unparseable timestamp raises `ValueError`.
-/

set_option maxHeartbeats 1000000

/-- Python exceptions relevant to `event.py`: `KeyError` (missing
dictionary key, carrying the key), `TypeError` (indexing or calling a
method on a value of the wrong shape) and `ValueError` (timestamp parse
failure in `datetime.fromisoformat`). -/
inductive PyErr where
  | keyError (key : String)
  | typeError
  | valueError
deriving DecidableEq, Repr

/-- A JSON-like raw value as delivered by the pub/sub channel: either a
string leaf or a nested dictionary. -/
inductive RawValue where
  | str (s : String)
  | vdict (entries : List (String × RawValue))

/-- A raw dictionary: an association list from string keys to raw values. -/
abbrev RawDict := List (String × RawValue)

/-- Python dict lookup returning an optional value: first entry whose key
matches. -/
def lookupKey {α : Type} : List (String × α) → String → Option α
  | [], _ => none
  | (k', v) :: rest, k => if k' = k then some v else lookupKey rest k

/-- Python membership test `k in d`. -/
def hasKey {α : Type} (d : List (String × α)) (k : String) : Bool :=
  (lookupKey d k).isSome

/-- Python subscript `d[k]`: the stored value, or `KeyError` when the key
is absent. -/
def getItem {α : Type} (d : List (String × α)) (k : String) : Except PyErr α :=
  match lookupKey d k with
  | some v => .ok v
  | none => .error (.keyError k)

/-- Python `d.get(k, default)`. -/
def dictGet {α : Type} (d : List (String × α)) (k : String) (default : α) : α :=
  (lookupKey d k).getD default

/-- Python dict assignment `d[k] = v`: overwrite in place when the key is
present, append otherwise. -/
def dictInsert {α : Type} : List (String × α) → String → α → List (String × α)
  | [], k, v => [(k, v)]
  | (k', v') :: rest, k, v =>
      if k' = k then (k', v) :: rest else (k', v') :: dictInsert rest k v

/-- View a raw value as a dictionary; `TypeError` on a string, mirroring
Python subscripting or calling `.get`-style methods on a non-dict. -/
def asDict : RawValue → Except PyErr RawDict
  | .vdict d => .ok d
  | _ => .error .typeError

/-- View a raw value as a string; `TypeError` otherwise, mirroring a
string-method call on a non-string. -/
def asStr : RawValue → Except PyErr String
  | .str s => .ok s
  | _ => .error .typeError

/-- Key constant `eventId` from `event.py`. -/
def EVENT_ID : String := "eventId"

/-- Key constant `eventSessionId` from `event.py`. -/
def EVENT_SESSION_ID : String := "eventSessionId"

/-- Key constant `timestamp` from `event.py`. -/
def TIMESTAMP : String := "timestamp"

/-- Key constant `resourceUpdate` from `event.py`. -/
def RESOURCE_UPDATE : String := "resourceUpdate"

/-- Key constant `name` from `event.py`. -/
def NAME : String := "name"

/-- Key constant `traits` from `event.py`. -/
def TRAITS : String := "traits"

/-- Key constant `events` from `event.py`. -/
def EVENTS : String := "events"

/-- Key constant `relationUpdate` from `event.py`. -/
def RELATION_UPDATE : String := "relationUpdate"

/-- Key constant `type` from `event.py`. -/
def TYPE : String := "type"

/-- Key constant `subject` from `event.py`. -/
def SUBJECT : String := "subject"

/-- Key constant `object` from `event.py`. -/
def OBJECT : String := "object"

/-- The four concrete subclasses of `EventBase` in `event.py`, which are
behaviourally identical and differ only in their registered type name. -/
inductive EventVariant where
  | cameraMotion
  | cameraPerson
  | cameraSound
  | doorbellChime
deriving DecidableEq, Repr

/-- An event value object: an instance of one of the four `EventBase`
subclasses, holding the raw data passed to `__init__` unexamined. -/
structure EventBase where
  variant : EventVariant
  data : RawValue

/-- Accessor `EventBase.event_id`: `self._data[EVENT_ID]`. -/
def EventBase.event_id (e : EventBase) : Except PyErr RawValue :=
  asDict e.data >>= fun d => getItem d EVENT_ID

/-- Accessor `EventBase.event_session_id`: `self._data[EVENT_SESSION_ID]`. -/
def EventBase.event_session_id (e : EventBase) : Except PyErr RawValue :=
  asDict e.data >>= fun d => getItem d EVENT_SESSION_ID

/-- Type-name constant of `CameraMotionEvent`. -/
def CameraMotionEvent.NAME : String := "sdm.devices.events.CameraMotion.Motion"

/-- Type-name constant of `CameraPersonEvent`. -/
def CameraPersonEvent.NAME : String := "sdm.devices.events.CameraPerson.Person"

/-- Type-name constant of `CameraSoundEvent`. -/
def CameraSoundEvent.NAME : String := "sdm.devices.events.CameraSound.Sound"

/-- Type-name constant of `DoorbellChimeEvent`. -/
def DoorbellChimeEvent.NAME : String := "sdm.devices.events.DoorbellChime.Chime"

/-- Modelled from the spec: the `Registry` class (`registry.py`, not under
`src/`) is per spec section 4.1 a mapping from event-type strings to
constructors, populated once by the four `@EVENT_MAP.register()`
decorators in `event.py` and read-only afterwards. Modelled as the
resulting name-to-constructor table. -/
def EVENT_MAP : List (String × (RawValue → EventBase)) :=
  [(CameraMotionEvent.NAME, fun d => ⟨.cameraMotion, d⟩),
   (CameraPersonEvent.NAME, fun d => ⟨.cameraPerson, d⟩),
   (CameraSoundEvent.NAME, fun d => ⟨.cameraSound, d⟩),
   (DoorbellChimeEvent.NAME, fun d => ⟨.doorbellChime, d⟩)]

/-- A relational update for a resource; stores the raw data passed to
`__init__` unexamined. -/
structure RelationUpdate where
  raw_data : RawValue

/-- Accessor `RelationUpdate.type`: `self._raw_data[TYPE]`. -/
def RelationUpdate.type (r : RelationUpdate) : Except PyErr RawValue :=
  asDict r.raw_data >>= fun d => getItem d TYPE

/-- Accessor `RelationUpdate.subject`: `self._raw_data[SUBJECT]`. -/
def RelationUpdate.subject (r : RelationUpdate) : Except PyErr RawValue :=
  asDict r.raw_data >>= fun d => getItem d SUBJECT

/-- Accessor `RelationUpdate.object`: `self._raw_data[OBJECT]`. -/
def RelationUpdate.object (r : RelationUpdate) : Except PyErr RawValue :=
  asDict r.raw_data >>= fun d => getItem d OBJECT

/-- The dispatch helper `BuildEvents(events, event_map)`: iterate over the
input entries, skip those whose type string is not in the registry, and
assign `result[event] = cls(event_data)` for the rest. Generic over the
entry and object types, as the Python function is duck-typed. -/
def BuildEvents {α β : Type} (events : List (String × α))
    (event_map : List (String × (α → β))) : List (String × β) :=
  events.foldl (fun result p =>
    match lookupKey event_map p.1 with
    | none => result
    | some cls => dictInsert result p.1 (cls p.2)) []

/-- A parsed `datetime.datetime` value: calendar fields plus an optional
timezone offset in microseconds (`none` means a naive datetime). -/
structure PyDatetime where
  year : Nat
  month : Nat
  day : Nat
  hour : Nat
  minute : Nat
  second : Nat
  microsecond : Nat
  tzOffsetMicros : Option Int
deriving DecidableEq, Repr

/-- Two ASCII digit characters to their two-digit value, mirroring
`int(tstr[pos:pos+2])` on a digits-only slice. -/
def twoDigits (a b : Char) : Option Nat :=
  if a.isDigit && b.isDigit then
    some ((a.toNat - 48) * 10 + (b.toNat - 48))
  else none

/-- Digits-only string to its numeric value, mirroring `int(...)` on the
fraction slice. -/
def parseDigits (cs : List Char) : Option Nat :=
  if cs ≠ [] && cs.all Char.isDigit then
    some (cs.foldl (fun acc c => acc * 10 + (c.toNat - 48)) 0)
  else none

/-- Gregorian leap-year test, as in `datetime._is_leap`. -/
def isLeap (y : Nat) : Bool :=
  y % 4 == 0 && (y % 100 != 0 || y % 400 == 0)

/-- Days in a month, as in `datetime._days_in_month`. -/
def daysInMonth (y m : Nat) : Nat :=
  if m = 2 then (if isLeap y then 29 else 28)
  else if m = 4 ∨ m = 6 ∨ m = 9 ∨ m = 11 then 30
  else 31

/-- Modelled from CPython `datetime._parse_isoformat_date`: the date part
must be exactly the ten characters `YYYY-MM-DD` with numeric fields. -/
def parseIsoDate : List Char → Option (Nat × Nat × Nat)
  | [y1, y2, y3, y4, s1, m1, m2, s2, d1, d2] =>
    if s1 = '-' ∧ s2 = '-' then
      match twoDigits y1 y2, twoDigits y3 y4, twoDigits m1 m2, twoDigits d1 d2 with
      | some yh, some yl, some mo, some dy => some (yh * 100 + yl, mo, dy)
      | _, _, _, _ => none
    else none
  | _ => none

/-- Modelled from CPython `datetime._parse_hh_mm_ss_ff`: parses
`HH[:MM[:SS[.fff[fff]]]]`, where the fraction must be exactly three or
six digits; returns (hour, minute, second, microsecond). -/
def parseHMSF : List Char → Option (Nat × Nat × Nat × Nat)
  | h1 :: h2 :: rest => do
    let hh ← twoDigits h1 h2
    match rest with
    | [] => some (hh, 0, 0, 0)
    | ':' :: m1 :: m2 :: rest2 => do
      let mm ← twoDigits m1 m2
      match rest2 with
      | [] => some (hh, mm, 0, 0)
      | ':' :: s1 :: s2 :: rest3 => do
        let ss ← twoDigits s1 s2
        match rest3 with
        | [] => some (hh, mm, ss, 0)
        | '.' :: frac =>
          if frac.length = 3 then (parseDigits frac).map (fun f => (hh, mm, ss, f * 1000))
          else if frac.length = 6 then (parseDigits frac).map (fun f => (hh, mm, ss, f))
          else none
        | _ => none
      | _ => none
    | _ => none
  | _ => none

/-- Modelled from CPython `datetime._parse_isoformat_time`: parses
`HH[:MM[:SS[.fff[fff]]]][+HH:MM[:SS[.ffffff]]]`. The timezone split looks
for the first `-`, else the first `+` (as the CPython reference does);
the timezone string must have length 5, 8 or 15 and yield an offset
strictly between minus and plus 24 hours. -/
def parseIsoTime (cs : List Char) : Option (Nat × Nat × Nat × Nat × Option Int) :=
  if cs.length < 2 then none
  else
    match (match cs.findIdx? (· = '-') with
           | some i => some i
           | none => cs.findIdx? (· = '+')) with
    | none => (parseHMSF cs).map (fun (h, m, s, f) => (h, m, s, f, none))
    | some i => do
      let (h, m, s, f) ← parseHMSF (cs.take i)
      let tzstr := cs.drop (i + 1)
      if tzstr.length = 5 ∨ tzstr.length = 8 ∨ tzstr.length = 15 then do
        let (th, tm, ts, tf) ← parseHMSF tzstr
        let mag : Nat := (th * 3600 + tm * 60 + ts) * 1000000 + tf
        let off : Int := (if cs.get? i = some '-' then -1 else 1) * (mag : Int)
        if mag < 24 * 3600 * 1000000 then
          some (h, m, s, f, some off)
        else none
      else none

/-- Modelled from CPython `datetime.datetime.fromisoformat` (the pre-3.11
grammar used at the time of this code): characters 0-9 are the date,
character 10 is an arbitrary separator, the rest is the time; field
ranges are validated as the `datetime` constructor does. Returns `none`
where CPython raises `ValueError`. -/
def fromisoformat (s : String) : Option PyDatetime := do
  let ds := s.data
  let (y, mo, dy) ← parseIsoDate (ds.take 10)
  let (h, mi, sec, us, tz) ←
    if ds.length ≤ 10 then some (0, 0, 0, 0, none)
    else parseIsoTime (ds.drop 11)
  if 1 ≤ y ∧ y ≤ 9999 ∧ 1 ≤ mo ∧ mo ≤ 12 ∧ 1 ≤ dy ∧ dy ≤ daysInMonth y mo ∧
      h ≤ 23 ∧ mi ≤ 59 ∧ sec ≤ 59 ∧ us ≤ 999999 then
    some ⟨y, mo, dy, h, mi, sec, us, tz⟩
  else none

/-- Python `s.replace("Z", "+00:00")` specialised to the single-character
pattern used in `event.py`: every occurrence of `Z` is replaced. -/
def replaceZChars : List Char → List Char
  | [] => []
  | c :: rest =>
      if c = 'Z' then '+' :: '0' :: '0' :: ':' :: '0' :: '0' :: replaceZChars rest
      else c :: replaceZChars rest

/-- String form of `event_timestamp.replace("Z", "+00:00")`. -/
def pyReplaceZ (s : String) : String :=
  String.mk (replaceZChars s.data)

/-- Modelled from the spec: `Command` (`traits.py`, not under `src/`) is an
opaque authenticated-command capability bound to a device name; never
interpreted by this component. The auth handle is opaque and omitted. -/
structure Command where
  deviceName : Option RawValue

/-- A trait object as produced by the trait-building collaborator. -/
structure Trait where
  traitName : String
  traitData : RawValue
  cmd : Command

/-- Modelled from the spec: `BuildTraits` (`traits.py`, not under `src/`)
accepts the `traits` sub-map and a command object and returns a mapping
from trait name to trait object bound to that command. -/
def BuildTraits (traits : RawDict) (cmd : Command) : List (String × Trait) :=
  traits.map (fun p => (p.1, ⟨p.1, p.2, cmd⟩))

/-- The `EventMessage` envelope: holds the raw dictionary passed to
`__init__` unexamined. The `auth` argument is an opaque capability that
is only ever forwarded to `Command`, so it is not modelled. -/
structure EventMessage where
  raw_data : RawDict

/-- Accessor `EventMessage.event_id`: `self._raw_data[EVENT_ID]`. -/
def EventMessage.event_id (m : EventMessage) : Except PyErr RawValue :=
  getItem m.raw_data EVENT_ID

/-- Accessor `EventMessage.timestamp`: fetch `self._raw_data[TIMESTAMP]`,
replace every `Z` with `+00:00`, and parse with
`datetime.datetime.fromisoformat`; a parse failure is a `ValueError`. -/
def EventMessage.timestamp (m : EventMessage) : Except PyErr PyDatetime := do
  let v ← getItem m.raw_data TIMESTAMP
  let event_timestamp ← asStr v
  match fromisoformat (pyReplaceZ event_timestamp) with
  | some dt => pure dt
  | none => .error .valueError

/-- Accessor `EventMessage.resource_update_name`: `None` when
`RESOURCE_UPDATE` is absent, else `self._raw_data[RESOURCE_UPDATE][NAME]`. -/
def EventMessage.resource_update_name (m : EventMessage) :
    Except PyErr (Option RawValue) :=
  if hasKey m.raw_data RESOURCE_UPDATE then do
    let ru ← getItem m.raw_data RESOURCE_UPDATE
    let rud ← asDict ru
    let nm ← getItem rud NAME
    pure (some nm)
  else pure none

/-- Accessor `EventMessage.resource_update_events`: `None` when
`RESOURCE_UPDATE` is absent, else `BuildEvents` over
`self._raw_data[RESOURCE_UPDATE].get(EVENTS, default empty dict)` with the
`EVENT_MAP` registry. -/
def EventMessage.resource_update_events (m : EventMessage) :
    Except PyErr (Option (List (String × EventBase))) :=
  if hasKey m.raw_data RESOURCE_UPDATE then do
    let ru ← getItem m.raw_data RESOURCE_UPDATE
    let rud ← asDict ru
    let events ← asDict (dictGet rud EVENTS (.vdict []))
    pure (some (BuildEvents events EVENT_MAP))
  else pure none

/-- Accessor `EventMessage.resource_update_traits`: `None` when
`RESOURCE_UPDATE` is absent; otherwise build
`Command(self.resource_update_name, auth)` (evaluating the
`resource_update_name` property first, so its failures propagate) and
delegate to `BuildTraits` over the `traits` sub-map (default empty). -/
def EventMessage.resource_update_traits (m : EventMessage) :
    Except PyErr (Option (List (String × Trait))) :=
  if hasKey m.raw_data RESOURCE_UPDATE then do
    let nm ← m.resource_update_name
    let cmd : Command := ⟨nm⟩
    let ru ← getItem m.raw_data RESOURCE_UPDATE
    let rud ← asDict ru
    let events ← asDict (dictGet rud TRAITS (.vdict []))
    pure (some (BuildTraits events cmd))
  else pure none

/-- Accessor `EventMessage.relation_update`: `None` when `RELATION_UPDATE`
is absent, else a `RelationUpdate` wrapping
`self._raw_data[RELATION_UPDATE]`. -/
def EventMessage.relation_update (m : EventMessage) :
    Except PyErr (Option RelationUpdate) :=
  if hasKey m.raw_data RELATION_UPDATE then do
    let ru ← getItem m.raw_data RELATION_UPDATE
    pure (some ⟨ru⟩)
  else pure none

/-- The six public accessors of `EventMessage`, named for a small
operational model of accessor calls. -/
inductive Accessor where
  | eventIdA
  | timestampA
  | resourceUpdateNameA
  | resourceUpdateEventsA
  | resourceUpdateTraitsA
  | relationUpdateA
deriving DecidableEq, Repr

/-- The union of the accessors' result types. -/
inductive AccResult where
  | rval (v : RawValue)
  | rdt (v : PyDatetime)
  | ropt (v : Option RawValue)
  | revents (v : Option (List (String × EventBase)))
  | rtraits (v : Option (List (String × Trait)))
  | rrel (v : Option RelationUpdate)

/-- Operational model of invoking one accessor on an `EventMessage`: the
result together with the post-call object state. Each property body in
`event.py` only reads `self._raw_data` and assigns nothing, so the
post-call state is the object as it was. -/
def callAccessor : Accessor → EventMessage → Except PyErr AccResult × EventMessage
  | .eventIdA, m => (m.event_id.map .rval, m)
  | .timestampA, m => (m.timestamp.map .rdt, m)
  | .resourceUpdateNameA, m => (m.resource_update_name.map .ropt, m)
  | .resourceUpdateEventsA, m => (m.resource_update_events.map .revents, m)
  | .resourceUpdateTraitsA, m => (m.resource_update_traits.map .rtraits, m)
  | .relationUpdateA, m => (m.relation_update.map .rrel, m)

/-- Lookup misses when the key is not among the stored keys. -/
theorem lookupKey_eq_none_of_not_mem {α : Type} (d : List (String × α)) (k : String)
    (h : k ∉ d.map Prod.fst) : lookupKey d k = none := by
  induction d with
  | nil => rfl
  | cons p rest ih =>
    have hne : p.1 ≠ k := by
      intro he
      exact h (by simp [he])
    have : k ∉ rest.map Prod.fst := fun hm => h (by simp [hm])
    simp [lookupKey, hne, ih this]

/-- Lookup over an appended association list tries the left part first. -/
theorem lookupKey_append {α : Type} (l1 l2 : List (String × α)) (k : String) :
    lookupKey (l1 ++ l2) k
      = match lookupKey l1 k with
        | some v => some v
        | none => lookupKey l2 k := by
  induction l1 with
  | nil => simp [lookupKey]
  | cons p rest ih =>
    by_cases hp : p.1 = k <;> simp [lookupKey, hp, ih]

/-- Inserting a fresh key appends the new entry. -/
theorem dictInsert_eq_append {α : Type} (d : List (String × α)) (k : String) (v : α)
    (h : lookupKey d k = none) : dictInsert d k v = d ++ [(k, v)] := by
  induction d with
  | nil => rfl
  | cons p rest ih =>
    obtain ⟨k', v'⟩ := p
    by_cases hp : k' = k
    · simp [lookupKey, hp] at h
    · simp [lookupKey, hp] at h
      simp [dictInsert, hp, ih h]

/-- The accumulator form of the `BuildEvents` loop: with pairwise-distinct
input keys none of which collide with the accumulator, the loop appends
one entry per input entry whose type is registered. -/
theorem buildEvents_go {α β : Type} (event_map : List (String × (α → β))) :
    ∀ (events : List (String × α)) (acc : List (String × β)),
      (∀ p ∈ events, lookupKey acc p.1 = none) →
      (events.map Prod.fst).Nodup →
      events.foldl (fun result p =>
          match lookupKey event_map p.1 with
          | none => result
          | some cls => dictInsert result p.1 (cls p.2)) acc
        = acc ++ events.filterMap (fun p =>
            (lookupKey event_map p.1).map (fun cls => (p.1, cls p.2))) := by
  intro events
  induction events with
  | nil => intro acc _ _; simp
  | cons p rest ih =>
    intro acc hdisj hnd
    obtain ⟨k, v⟩ := p
    have hk : lookupKey acc k = none := hdisj (k, v) (List.mem_cons_self _ _)
    have hnd' : (rest.map Prod.fst).Nodup := by
      simpa using (List.nodup_cons.mp (by simpa using hnd)).2
    have hknotin : k ∉ rest.map Prod.fst :=
      (List.nodup_cons.mp (by simpa using hnd)).1
    rw [List.foldl_cons]
    cases hcls : lookupKey event_map k with
    | none =>
      simp only [hcls]
      rw [ih acc (fun q hq => hdisj q (List.mem_cons_of_mem _ hq)) hnd']
      simp [List.filterMap_cons, hcls]
    | some cls =>
      simp only [hcls]
      rw [dictInsert_eq_append acc k (cls v) hk]
      rw [ih (acc ++ [(k, cls v)]) ?_ hnd']
      · simp [List.filterMap_cons, hcls]
      · intro q hq
        rw [lookupKey_append, hdisj q (List.mem_cons_of_mem _ hq)]
        have hne : k ≠ q.1 := fun he => hknotin (he ▸ List.mem_map_of_mem Prod.fst hq)
        simp [lookupKey, hne]

/-- With pairwise-distinct input keys, `BuildEvents` is the filter-map
keeping registered entries, each built by its registered constructor. -/
theorem buildEvents_eq_filterMap {α β : Type} (events : List (String × α))
    (event_map : List (String × (α → β)))
    (hnd : (events.map Prod.fst).Nodup) :
    BuildEvents events event_map
      = events.filterMap (fun p =>
          (lookupKey event_map p.1).map (fun cls => (p.1, cls p.2))) := by
  unfold BuildEvents
  simpa using buildEvents_go event_map events [] (by intro p _; rfl) hnd

/-- The keys of the filter-map are the input keys that are registered. -/
theorem keys_filterMap_registry {α β : Type} (events : List (String × α))
    (event_map : List (String × (α → β))) :
    (events.filterMap (fun p =>
        (lookupKey event_map p.1).map (fun cls => (p.1, cls p.2)))).map Prod.fst
      = (events.map Prod.fst).filter (fun k => hasKey event_map k) := by
  induction events with
  | nil => rfl
  | cons p rest ih =>
    cases hcls : lookupKey event_map p.1 <;>
      simp [List.filterMap_cons, List.filter_cons, hcls, hasKey, ih]

/-- Lookup in the filter-map built over distinct keys: present exactly
when the key is both an input key and registered, holding the constructed
object. -/
theorem lookupKey_filterMap_registry {α β : Type}
    (event_map : List (String × (α → β))) :
    ∀ (events : List (String × α)), (events.map Prod.fst).Nodup →
      ∀ k, lookupKey (events.filterMap (fun p =>
          (lookupKey event_map p.1).map (fun cls => (p.1, cls p.2)))) k
        = match lookupKey events k, lookupKey event_map k with
          | some ed, some cls => some (cls ed)
          | _, _ => none := by
  intro events
  induction events with
  | nil =>
    intro _ k
    cases lookupKey event_map k <;> simp [lookupKey]
  | cons p rest ih =>
    intro hnd k
    obtain ⟨k', v⟩ := p
    have hnd' : (rest.map Prod.fst).Nodup := by
      simpa using (List.nodup_cons.mp (by simpa using hnd)).2
    have hknotin : k' ∉ rest.map Prod.fst :=
      (List.nodup_cons.mp (by simpa using hnd)).1
    by_cases hkk : k' = k
    · subst hkk
      cases hcls : lookupKey event_map k' with
      | none =>
        rw [List.filterMap_cons]
        simp only [hcls, Option.map_none']
        rw [ih hnd' k', lookupKey_eq_none_of_not_mem rest k' hknotin]
        simp [lookupKey, hcls]
      | some cls =>
        rw [List.filterMap_cons]
        simp only [hcls, Option.map_some']
        simp [lookupKey, hcls]
    · cases hcls : lookupKey event_map k' with
      | none =>
        rw [List.filterMap_cons]
        simp only [hcls, Option.map_none']
        rw [ih hnd' k]
        simp [lookupKey, hkk]
      | some cls =>
        rw [List.filterMap_cons]
        simp only [hcls, Option.map_some']
        rw [lookupKey]
        simp only [hkk, if_false]
        rw [ih hnd' k]
        simp [lookupKey, hkk]

/-- C1: over any input mapping with pairwise-distinct keys and any
registry, `BuildEvents` returns a mapping whose keys are exactly the
input keys present in the registry, each mapped to the registered
constructor applied to that key's raw data; unregistered entries are
silently skipped with no error and no partial-failure signal. -/
theorem buildEvents_dispatch_spec {α β : Type} (events : List (String × α))
    (event_map : List (String × (α → β)))
    (hnd : (events.map Prod.fst).Nodup) :
    (BuildEvents events event_map).map Prod.fst
      = (events.map Prod.fst).filter (fun k => hasKey event_map k) ∧
    ∀ k, lookupKey (BuildEvents events event_map) k
      = match lookupKey events k, lookupKey event_map k with
        | some ed, some cls => some (cls ed)
        | _, _ => none := by
  rw [buildEvents_eq_filterMap events event_map hnd]
  exact ⟨keys_filterMap_registry events event_map,
    fun k => lookupKey_filterMap_registry event_map events hnd k⟩

/-- Witness for C1: the spec's two-entry example over the real registry
keeps exactly the known camera-motion entry and drops the unknown type. -/
theorem buildEvents_dispatch_spec_witness :
    (BuildEvents
        [(CameraMotionEvent.NAME, RawValue.vdict [(EVENT_ID, .str "E1")]),
         ("unknown.type.Foo", RawValue.vdict [])] EVENT_MAP).map Prod.fst
      = [CameraMotionEvent.NAME] ∧
    lookupKey (BuildEvents
        [(CameraMotionEvent.NAME, RawValue.vdict [(EVENT_ID, .str "E1")]),
         ("unknown.type.Foo", RawValue.vdict [])] EVENT_MAP) CameraMotionEvent.NAME
      = some ⟨.cameraMotion, .vdict [(EVENT_ID, .str "E1")]⟩ ∧
    lookupKey (BuildEvents
        [(CameraMotionEvent.NAME, RawValue.vdict [(EVENT_ID, .str "E1")]),
         ("unknown.type.Foo", RawValue.vdict [])] EVENT_MAP) "unknown.type.Foo"
      = none := by
  have h := buildEvents_dispatch_spec
    [(CameraMotionEvent.NAME, RawValue.vdict [(EVENT_ID, .str "E1")]),
     ("unknown.type.Foo", RawValue.vdict [])] EVENT_MAP (by decide)
  exact ⟨h.1.trans (by rfl),
    (h.2 CameraMotionEvent.NAME).trans (by rfl),
    (h.2 "unknown.type.Foo").trans (by rfl)⟩

/-- C6: for each of the four event variants, constructing from a raw
dictionary containing keys `eventId` and `eventSessionId` yields an object
whose `event_id` and `event_session_id` accessors return exactly the
stored values. -/
theorem eventBase_accessors_return_stored (variant : EventVariant)
    (d : RawDict) (e s : RawValue)
    (he : lookupKey d EVENT_ID = some e)
    (hs : lookupKey d EVENT_SESSION_ID = some s) :
    (EventBase.mk variant (.vdict d)).event_id = .ok e ∧
    (EventBase.mk variant (.vdict d)).event_session_id = .ok s := by
  constructor <;>
    simp [EventBase.event_id, EventBase.event_session_id, asDict, getItem,
      he, hs, Bind.bind, Except.bind]

/-- Witness for C6: the doorbell-chime variant on the spec's concrete
example dictionary returns `E1` and `S1`. -/
theorem eventBase_accessors_return_stored_witness :
    (EventBase.mk .doorbellChime
        (.vdict [(EVENT_ID, .str "E1"), (EVENT_SESSION_ID, .str "S1")])).event_id
      = .ok (.str "E1") ∧
    (EventBase.mk .doorbellChime
        (.vdict [(EVENT_ID, .str "E1"), (EVENT_SESSION_ID, .str "S1")])).event_session_id
      = .ok (.str "S1") :=
  eventBase_accessors_return_stored .doorbellChime
    [(EVENT_ID, .str "E1"), (EVENT_SESSION_ID, .str "S1")]
    (.str "E1") (.str "S1") rfl rfl

/-- C4: when the optional `resourceUpdate` key is absent, the three
resource-update accessors return an explicit absent result without
raising, and likewise `relation_update` when `relationUpdate` is absent. -/
theorem optional_sections_absent_ok (m : EventMessage) :
    (lookupKey m.raw_data RESOURCE_UPDATE = none →
      m.resource_update_name = .ok none ∧
      m.resource_update_events = .ok none ∧
      m.resource_update_traits = .ok none) ∧
    (lookupKey m.raw_data RELATION_UPDATE = none →
      m.relation_update = .ok none) := by
  constructor
  · intro h
    refine ⟨?_, ?_, ?_⟩ <;>
      simp [EventMessage.resource_update_name, EventMessage.resource_update_events,
        EventMessage.resource_update_traits, hasKey, h, Pure.pure, Except.pure]
  · intro h
    simp [EventMessage.relation_update, hasKey, h, Pure.pure, Except.pure]

/-- Witness for C4: on a message whose raw dictionary has neither optional
section, all four accessors return the explicit absent result. -/
theorem optional_sections_absent_ok_witness :
    ((EventMessage.mk [(EVENT_ID, .str "e")]).resource_update_name = .ok none ∧
     (EventMessage.mk [(EVENT_ID, .str "e")]).resource_update_events = .ok none ∧
     (EventMessage.mk [(EVENT_ID, .str "e")]).resource_update_traits = .ok none) ∧
    (EventMessage.mk [(EVENT_ID, .str "e")]).relation_update = .ok none :=
  ⟨(optional_sections_absent_ok (EventMessage.mk [(EVENT_ID, .str "e")])).1 rfl,
   (optional_sections_absent_ok (EventMessage.mk [(EVENT_ID, .str "e")])).2 rfl⟩

/-- C5: when `relationUpdate` is present, `relation_update` wraps exactly
that section, and the three `RelationUpdate` accessors return exactly the
values stored under `type`, `subject` and `object`, failing with a
`KeyError` naming the missing key when one is absent. -/
theorem relation_update_present_spec (m : EventMessage) (v : RawValue)
    (h : lookupKey m.raw_data RELATION_UPDATE = some v) :
    m.relation_update = .ok (some ⟨v⟩) ∧
    ∀ d : RawDict,
      ((RelationUpdate.mk (.vdict d)).type =
        (match lookupKey d TYPE with
         | some x => .ok x
         | none => .error (.keyError TYPE)) ∧
       (RelationUpdate.mk (.vdict d)).subject =
        (match lookupKey d SUBJECT with
         | some x => .ok x
         | none => .error (.keyError SUBJECT)) ∧
       (RelationUpdate.mk (.vdict d)).object =
        (match lookupKey d OBJECT with
         | some x => .ok x
         | none => .error (.keyError OBJECT))) := by
  refine ⟨?_, ?_⟩
  · simp [EventMessage.relation_update, hasKey, getItem, h, Bind.bind,
      Except.bind, Pure.pure, Except.pure]
  · intro d
    refine ⟨?_, ?_, ?_⟩
    · cases hl : lookupKey d TYPE <;>
        simp [RelationUpdate.type, asDict, getItem, hl, Bind.bind, Except.bind]
    · cases hl : lookupKey d SUBJECT <;>
        simp [RelationUpdate.subject, asDict, getItem, hl, Bind.bind, Except.bind]
    · cases hl : lookupKey d OBJECT <;>
        simp [RelationUpdate.object, asDict, getItem, hl, Bind.bind, Except.bind]

/-- Witness for C5: the spec's concrete example
`relationUpdate = (type CREATED, subject A, object B)` yields accessors
returning exactly those strings, and a fourth accessor call on a section
missing its key fails with the named `KeyError`. -/
theorem relation_update_present_spec_witness :
    (EventMessage.mk
        [(RELATION_UPDATE,
          .vdict [(TYPE, .str "CREATED"), (SUBJECT, .str "A"), (OBJECT, .str "B")])]).relation_update
      = .ok (some ⟨.vdict [(TYPE, .str "CREATED"), (SUBJECT, .str "A"), (OBJECT, .str "B")]⟩) ∧
    (RelationUpdate.mk
        (.vdict [(TYPE, .str "CREATED"), (SUBJECT, .str "A"), (OBJECT, .str "B")])).type
      = .ok (.str "CREATED") ∧
    (RelationUpdate.mk
        (.vdict [(TYPE, .str "CREATED"), (SUBJECT, .str "A"), (OBJECT, .str "B")])).subject
      = .ok (.str "A") ∧
    (RelationUpdate.mk
        (.vdict [(TYPE, .str "CREATED"), (SUBJECT, .str "A"), (OBJECT, .str "B")])).object
      = .ok (.str "B") ∧
    (RelationUpdate.mk (.vdict [(SUBJECT, .str "A")])).type
      = .error (.keyError TYPE) := by
  have h := relation_update_present_spec
    (EventMessage.mk
      [(RELATION_UPDATE,
        .vdict [(TYPE, .str "CREATED"), (SUBJECT, .str "A"), (OBJECT, .str "B")])])
    (.vdict [(TYPE, .str "CREATED"), (SUBJECT, .str "A"), (OBJECT, .str "B")])
    rfl
  exact ⟨h.1,
    (h.2 [(TYPE, .str "CREATED"), (SUBJECT, .str "A"), (OBJECT, .str "B")]).1,
    (h.2 [(TYPE, .str "CREATED"), (SUBJECT, .str "A"), (OBJECT, .str "B")]).2.1,
    (h.2 [(TYPE, .str "CREATED"), (SUBJECT, .str "A"), (OBJECT, .str "B")]).2.2,
    (h.2 [(SUBJECT, .str "A")]).1⟩

/-- C9: when `resourceUpdate` is present but lacks the `name` key,
`resource_update_traits` fails with a `KeyError` on `name` (raised while
building the command object via `resource_update_name`), even when a
well-formed `traits` sub-map is present. -/
theorem resource_update_traits_requires_name (m : EventMessage) (ru : RawDict)
    (h : lookupKey m.raw_data RESOURCE_UPDATE = some (.vdict ru))
    (hn : lookupKey ru NAME = none) :
    m.resource_update_traits = .error (.keyError NAME) := by
  simp [EventMessage.resource_update_traits, EventMessage.resource_update_name,
    hasKey, getItem, asDict, h, hn, Bind.bind, Except.bind, Pure.pure, Except.pure]

/-- Witness for C9: a message whose `resourceUpdate` has a well-formed
`traits` sub-map but no `name` key fails with `KeyError` on `name`. -/
theorem resource_update_traits_requires_name_witness :
    (EventMessage.mk
        [(RESOURCE_UPDATE,
          .vdict [(TRAITS, .vdict [("sdm.devices.traits.Info", .vdict [])])])]).resource_update_traits
      = .error (.keyError NAME) :=
  resource_update_traits_requires_name
    (EventMessage.mk
      [(RESOURCE_UPDATE,
        .vdict [(TRAITS, .vdict [("sdm.devices.traits.Info", .vdict [])])])])
    [(TRAITS, .vdict [("sdm.devices.traits.Info", .vdict [])])]
    rfl rfl

/-- The replacement leaves a string without `Z` unchanged. -/
theorem replaceZChars_of_not_mem (cs : List Char) (h : 'Z' ∉ cs) :
    replaceZChars cs = cs := by
  induction cs with
  | nil => rfl
  | cons c rest ih =>
    have hc : c ≠ 'Z' := fun he => h (he ▸ List.mem_cons_self c rest)
    have hr : 'Z' ∉ rest := fun hm => h (List.mem_cons_of_mem c hm)
    simp [replaceZChars, hc, ih hr]

/-- The replacement fires at every occurrence of `Z`, wherever it sits in
the string. -/
theorem replaceZChars_append (t1 t2 : List Char) :
    replaceZChars (t1 ++ 'Z' :: t2)
      = replaceZChars t1 ++ '+' :: '0' :: '0' :: ':' :: '0' :: '0' :: replaceZChars t2 := by
  induction t1 with
  | nil => simp [replaceZChars]
  | cons c rest ih =>
    by_cases hc : c = 'Z' <;> simp [replaceZChars, hc, ih]

/-- C2: the timestamp accessor parses exactly the raw string with `Z`
normalized to `+00:00`, failing with a parse error precisely when that
normalized string is not ISO-8601; on the spec's concrete example the
result equals the result of parsing the explicit `+00:00` form. -/
theorem timestamp_normalizes_Z (m : EventMessage) (s : String)
    (h : lookupKey m.raw_data TIMESTAMP = some (.str s)) :
    m.timestamp = (match fromisoformat (pyReplaceZ s) with
                   | some dt => .ok dt
                   | none => .error .valueError) ∧
    pyReplaceZ "2021-07-01T12:00:00Z" = "2021-07-01T12:00:00+00:00" ∧
    (EventMessage.mk [(TIMESTAMP, .str "2021-07-01T12:00:00Z")]).timestamp
      = .ok ⟨2021, 7, 1, 12, 0, 0, 0, some 0⟩ ∧
    fromisoformat "2021-07-01T12:00:00+00:00"
      = some ⟨2021, 7, 1, 12, 0, 0, 0, some 0⟩ := by
  refine ⟨?_, rfl, rfl, rfl⟩
  cases hf : fromisoformat (pyReplaceZ s) <;>
    simp [EventMessage.timestamp, getItem, asStr, h, hf, Bind.bind, Except.bind,
      Pure.pure, Except.pure]

/-- Witness for C2: the accessor on the spec's concrete raw dictionary. -/
theorem timestamp_normalizes_Z_witness :
    (EventMessage.mk [(TIMESTAMP, .str "2021-07-01T12:00:00Z")]).timestamp
      = (match fromisoformat (pyReplaceZ "2021-07-01T12:00:00Z") with
         | some dt => .ok dt
         | none => .error .valueError) ∧
    pyReplaceZ "2021-07-01T12:00:00Z" = "2021-07-01T12:00:00+00:00" ∧
    (EventMessage.mk [(TIMESTAMP, .str "2021-07-01T12:00:00Z")]).timestamp
      = .ok ⟨2021, 7, 1, 12, 0, 0, 0, some 0⟩ ∧
    fromisoformat "2021-07-01T12:00:00+00:00"
      = some ⟨2021, 7, 1, 12, 0, 0, 0, some 0⟩ :=
  timestamp_normalizes_Z
    (EventMessage.mk [(TIMESTAMP, .str "2021-07-01T12:00:00Z")])
    "2021-07-01T12:00:00Z" rfl

/-- C10: the `Z` substitution applies to every occurrence of `Z`, not only
a trailing UTC designator: the string handed to the parser is the raw
string with all occurrences replaced (occurrences anywhere are rewritten,
and `Z`-free strings pass through unchanged), as the concrete
non-trailing example shows. -/
theorem timestamp_replaces_every_Z (m : EventMessage) (s : String)
    (h : lookupKey m.raw_data TIMESTAMP = some (.str s)) :
    m.timestamp = (match fromisoformat (pyReplaceZ s) with
                   | some dt => .ok dt
                   | none => .error .valueError) ∧
    (∀ t1 t2 : List Char,
      replaceZChars (t1 ++ 'Z' :: t2)
        = replaceZChars t1 ++ '+' :: '0' :: '0' :: ':' :: '0' :: '0' :: replaceZChars t2) ∧
    (∀ t : List Char, 'Z' ∉ t → replaceZChars t = t) ∧
    pyReplaceZ "2021-07Z01T12:00:00Z" = "2021-07+00:0001T12:00:00+00:00" := by
  refine ⟨?_, replaceZChars_append, replaceZChars_of_not_mem, rfl⟩
  cases hf : fromisoformat (pyReplaceZ s) <;>
    simp [EventMessage.timestamp, getItem, asStr, h, hf, Bind.bind, Except.bind,
      Pure.pure, Except.pure]

/-- Witness for C10: a timestamp with a non-trailing `Z` is rewritten at
both occurrences before parsing. -/
theorem timestamp_replaces_every_Z_witness :
    (EventMessage.mk [(TIMESTAMP, .str "2021-07Z01T12:00:00Z")]).timestamp
      = (match fromisoformat (pyReplaceZ "2021-07Z01T12:00:00Z") with
         | some dt => .ok dt
         | none => .error .valueError) ∧
    replaceZChars ("2021-07".data ++ 'Z' :: "01T12:00:00Z".data)
      = replaceZChars "2021-07".data ++
          '+' :: '0' :: '0' :: ':' :: '0' :: '0' :: replaceZChars "01T12:00:00Z".data ∧
    pyReplaceZ "2021-07Z01T12:00:00Z" = "2021-07+00:0001T12:00:00+00:00" := by
  have h := timestamp_replaces_every_Z
    (EventMessage.mk [(TIMESTAMP, .str "2021-07Z01T12:00:00Z")])
    "2021-07Z01T12:00:00Z" rfl
  exact ⟨h.1, h.2.1 "2021-07".data "01T12:00:00Z".data, h.2.2.2⟩

/-- C3: constructors store the raw dictionary without examining it (they
are total functions of it), and each required-field accessor fails with a
missing-field `KeyError` naming its key exactly when that key is absent
from the raw dictionary at access time — for the event value objects, the
event message's `event_id` and `timestamp`, and the relation update's
three accessors. -/
theorem required_fields_lazy_keyError :
    (∀ (variant : EventVariant) (d : RawDict),
      ((EventBase.mk variant (.vdict d)).event_id = .error (.keyError EVENT_ID) ↔
        lookupKey d EVENT_ID = none) ∧
      ((EventBase.mk variant (.vdict d)).event_session_id
          = .error (.keyError EVENT_SESSION_ID) ↔
        lookupKey d EVENT_SESSION_ID = none)) ∧
    (∀ d : RawDict,
      ((EventMessage.mk d).event_id = .error (.keyError EVENT_ID) ↔
        lookupKey d EVENT_ID = none) ∧
      ((EventMessage.mk d).timestamp = .error (.keyError TIMESTAMP) ↔
        lookupKey d TIMESTAMP = none)) ∧
    (∀ d : RawDict,
      ((RelationUpdate.mk (.vdict d)).type = .error (.keyError TYPE) ↔
        lookupKey d TYPE = none) ∧
      ((RelationUpdate.mk (.vdict d)).subject = .error (.keyError SUBJECT) ↔
        lookupKey d SUBJECT = none) ∧
      ((RelationUpdate.mk (.vdict d)).object = .error (.keyError OBJECT) ↔
        lookupKey d OBJECT = none)) := by
  refine ⟨fun variant d => ⟨?_, ?_⟩, fun d => ⟨?_, ?_⟩, fun d => ⟨?_, ?_, ?_⟩⟩
  · cases hl : lookupKey d EVENT_ID <;>
      simp [EventBase.event_id, asDict, getItem, hl, Bind.bind, Except.bind]
  · cases hl : lookupKey d EVENT_SESSION_ID <;>
      simp [EventBase.event_session_id, asDict, getItem, hl, Bind.bind, Except.bind]
  · cases hl : lookupKey d EVENT_ID <;>
      simp [EventMessage.event_id, getItem, hl]
  · cases hl : lookupKey d TIMESTAMP with
    | none =>
      simp [EventMessage.timestamp, getItem, hl, Bind.bind, Except.bind]
    | some v =>
      cases v with
      | str s =>
        cases hf : fromisoformat (pyReplaceZ s) <;>
          simp [EventMessage.timestamp, getItem, asStr, hl, hf, Bind.bind,
            Except.bind, Pure.pure, Except.pure]
      | vdict entries =>
        simp [EventMessage.timestamp, getItem, asStr, hl, Bind.bind, Except.bind]
  · cases hl : lookupKey d TYPE <;>
      simp [RelationUpdate.type, asDict, getItem, hl, Bind.bind, Except.bind]
  · cases hl : lookupKey d SUBJECT <;>
      simp [RelationUpdate.subject, asDict, getItem, hl, Bind.bind, Except.bind]
  · cases hl : lookupKey d OBJECT <;>
      simp [RelationUpdate.object, asDict, getItem, hl, Bind.bind, Except.bind]

/-- C7: when `resourceUpdate` is present, `resource_update_events` is the
dispatch function applied to the `events` sub-map, with an empty map used
as the default when the `events` key is missing — in that case the result
is an explicit empty mapping, neither absent nor an error. -/
theorem resource_update_events_dispatch (m : EventMessage) (ru : RawDict)
    (h : lookupKey m.raw_data RESOURCE_UPDATE = some (.vdict ru)) :
    (lookupKey ru EVENTS = none →
      m.resource_update_events = .ok (some (BuildEvents ([] : RawDict) EVENT_MAP)) ∧
      m.resource_update_events = .ok (some [])) ∧
    (∀ evs : RawDict, lookupKey ru EVENTS = some (.vdict evs) →
      m.resource_update_events = .ok (some (BuildEvents evs EVENT_MAP))) := by
  constructor
  · intro he
    constructor <;>
      simp [EventMessage.resource_update_events, hasKey, getItem, asDict,
        dictGet, h, he, BuildEvents, Bind.bind, Except.bind, Pure.pure, Except.pure]
  · intro evs he
    simp [EventMessage.resource_update_events, hasKey, getItem, asDict,
      dictGet, h, he, Bind.bind, Except.bind, Pure.pure, Except.pure]

/-- Witness for C7: a `resourceUpdate` with no `events` key yields the
empty mapping, and one with a one-entry `events` sub-map yields the
dispatch result over it. -/
theorem resource_update_events_dispatch_witness :
    (EventMessage.mk
        [(RESOURCE_UPDATE, .vdict [(NAME, .str "d1")])]).resource_update_events
      = .ok (some []) ∧
    (EventMessage.mk
        [(RESOURCE_UPDATE,
          .vdict [(EVENTS,
            .vdict [(CameraMotionEvent.NAME, .vdict [(EVENT_ID, .str "E1")])])])]).resource_update_events
      = .ok (some (BuildEvents
          [(CameraMotionEvent.NAME, RawValue.vdict [(EVENT_ID, .str "E1")])] EVENT_MAP)) :=
  ⟨(resource_update_events_dispatch
      (EventMessage.mk [(RESOURCE_UPDATE, .vdict [(NAME, .str "d1")])])
      [(NAME, .str "d1")] rfl).1 rfl |>.2,
   (resource_update_events_dispatch
      (EventMessage.mk
        [(RESOURCE_UPDATE,
          .vdict [(EVENTS,
            .vdict [(CameraMotionEvent.NAME, .vdict [(EVENT_ID, .str "E1")])])])])
      [(EVENTS, .vdict [(CameraMotionEvent.NAME, .vdict [(EVENT_ID, .str "E1")])])]
      rfl).2
      [(CameraMotionEvent.NAME, .vdict [(EVENT_ID, .str "E1")])] rfl⟩

/-- C8: a failing accessor call leaves the message's underlying raw data
unchanged, and any other accessor called afterwards on the resulting
object returns exactly what it would have returned on the original
object. -/
theorem accessor_failure_is_local (a b : Accessor) (m : EventMessage)
    (hfail : ∃ e, (callAccessor a m).1 = .error e) :
    (callAccessor a m).2 = m ∧
    (callAccessor a m).2.raw_data = m.raw_data ∧
    (callAccessor b (callAccessor a m).2).1 = (callAccessor b m).1 := by
  obtain ⟨e, -⟩ := hfail
  cases a <;> exact ⟨rfl, rfl, rfl⟩

/-- Witness for C8: after `timestamp` fails with a `KeyError` on a message
holding only a relation update, `relation_update` still returns its
result unchanged. -/
theorem accessor_failure_is_local_witness :
    (callAccessor .timestampA
        (EventMessage.mk [(RELATION_UPDATE, .vdict [(TYPE, .str "DELETED")])])).2
      = EventMessage.mk [(RELATION_UPDATE, .vdict [(TYPE, .str "DELETED")])] ∧
    (callAccessor .timestampA
        (EventMessage.mk [(RELATION_UPDATE, .vdict [(TYPE, .str "DELETED")])])).2.raw_data
      = [(RELATION_UPDATE, .vdict [(TYPE, .str "DELETED")])] ∧
    (callAccessor .relationUpdateA
        (callAccessor .timestampA
          (EventMessage.mk [(RELATION_UPDATE, .vdict [(TYPE, .str "DELETED")])])).2).1
      = (callAccessor .relationUpdateA
          (EventMessage.mk [(RELATION_UPDATE, .vdict [(TYPE, .str "DELETED")])])).1 :=
  accessor_failure_is_local .timestampA .relationUpdateA
    (EventMessage.mk [(RELATION_UPDATE, .vdict [(TYPE, .str "DELETED")])])
    ⟨.keyError TIMESTAMP, rfl⟩
